import Mathlib

/-!
# Inertia: bootstrap sequencer, control-plane client, streaming copy loop, daemon start-up

A shallow embedding of `client/client.go`, `common/util.go` and
`daemon/inertia/daemon.go`, with the properties of the specification stated
over it.

Conventions of the embedding.

* A Go `error` is identified with the text of its `Error()` method; a
  nilable `error` is an `Option GoError`, `none` being `nil`.
* An `SSHSession` is the remote end seen from the client.  The state that is
  threaded through the client code is the list of calls made on the session
  so far (what the test double `mockSSHRunner` keeps in `Calls`); the answer
  of the remote to a call may depend on everything that was called before.
* Console output (`println`, `fmt.Printf`) is not part of the model.
-/

namespace Inertia

/-- A Go `error`, identified with its message. -/
abbrev GoError := String

/-! ## SSH execution contract -/

/-- One call on an `SSHSession`: `Run(cmd)` or `RunStream(cmd, interactive)`. -/
inductive Call where
  | run (cmd : String)
  | runStream (cmd : String) (interactive : Bool)
deriving DecidableEq, Repr

/-- What `Run` returns: `(*bytes.Buffer, *bytes.Buffer, error)`. -/
structure RunResult where
  stdout : String
  stderr : String
  err : Option GoError
deriving DecidableEq, Repr

/-- The `SSHSession` interface.  Each method answers as a function of the calls
already made on the session and of its arguments. -/
structure SSHSession where
  Run : List Call → String → RunResult
  RunStream : List Call → String → Bool → Option GoError

/-- The effect of `session.Run(cmd)`: the answer, and the call recorded. -/
def SSHSession.doRun (session : SSHSession) (cmd : String) (calls : List Call) :
    RunResult × List Call :=
  (session.Run calls cmd, calls ++ [Call.run cmd])

/-- The effect of `session.RunStream(cmd, interactive)`. -/
def SSHSession.doRunStream (session : SSHSession) (cmd : String) (interactive : Bool)
    (calls : List Call) : Option GoError × List Call :=
  (session.RunStream calls cmd interactive, calls ++ [Call.runStream cmd interactive])

/-! ## Data model -/

/-- The daemon part of a remote profile (`DaemonConfig`), with the fields the
client code and its tests use. -/
structure DaemonConfig where
  Port : String
  SSHPort : String
  Token : String
  Secret : String
deriving DecidableEq, Repr

/-- The remote profile (`RemoteVPS`), with the fields the client code and its
tests use.  `Daemon` is taken to be non-nil. -/
structure RemoteVPS where
  Name : String
  IP : String
  User : String
  PEM : String
  Branch : String
  Daemon : DaemonConfig
deriving DecidableEq, Repr

/-- The `Client` struct of `client.go`: the embedded remote and three strings. -/
structure Client where
  RemoteVPS : RemoteVPS
  version : String
  project : String
  buildType : String
deriving DecidableEq, Repr

/-- The generated asset table and the formatter of the standard library, which
the client code calls but does not define: `Asset(name)` returns the bytes of
an embedded script or an error, `Sprintf(format, args)` is `fmt.Sprintf` on
string operands. -/
structure Env where
  Asset : String → Except GoError String
  Sprintf : String → List String → String

/-! ## Bootstrap sequencer -/

/-- `Client.DaemonUp` (client.go 103-113). -/
def DaemonUp (env : Env) (session : SSHSession) (daemonVersion host daemonPort : String)
    (calls : List Call) : Option GoError × List Call :=
  match env.Asset "client/bootstrap/daemon-up.sh" with
  | .error err => (some err, calls)
  | .ok scriptBytes =>
    -- Run inertia daemon.
    let daemonCmdStr := env.Sprintf scriptBytes [daemonVersion, daemonPort, host]
    session.doRunStream daemonCmdStr false calls

/-- `Client.DaemonDown` (client.go 115-129). -/
def DaemonDown (env : Env) (session : SSHSession) (calls : List Call) :
    Option GoError × List Call :=
  match env.Asset "client/bootstrap/daemon-down.sh" with
  | .error err => (some err, calls)
  | .ok scriptBytes =>
    let r := session.doRun scriptBytes calls
    match r.1.err with
    | some err => (some err, r.2)
    | none => (none, r.2)

/-- The three bootstrap helpers that `BootstrapRemote` calls on the client and
that `client.go` does not define.  Each receives the remote profile (which it
reads), the session, and the calls made so far. -/
structure Helpers where
  installDocker : RemoteVPS → SSHSession → List Call → Option GoError × List Call
  keyGen : RemoteVPS → SSHSession → List Call → (String × Option GoError) × List Call
  getDaemonAPIToken :
    RemoteVPS → SSHSession → String → List Call → (String × Option GoError) × List Call

/-- What a call of `BootstrapRemote` leaves behind: the returned error, the
client (whose `Daemon.Token` the function may assign) and the calls made on the
session. -/
structure BootstrapResult where
  err : Option GoError
  client : Client
  calls : List Call
deriving DecidableEq, Repr

/-- The assignment `c.Daemon.Token = token`. -/
def Client.setToken (c : Client) (token : String) : Client :=
  { c with RemoteVPS := { c.RemoteVPS with Daemon := { c.RemoteVPS.Daemon with Token := token } } }

/-- `Client.BootstrapRemote` (client.go 42-101).  The two repeated tests of `err`
after the banners of steps 2 and 3 are kept. -/
def BootstrapRemote (env : Env) (h : Helpers) (c : Client) (runner : SSHSession)
    (calls : List Call) : BootstrapResult :=
  -- Step 1/4: Installing docker
  let r1 := h.installDocker c.RemoteVPS runner calls
  let err := r1.1
  if err ≠ none then ⟨err, c, r1.2⟩ else
  -- Step 2/4: Building deploy key
  if err ≠ none then ⟨err, c, r1.2⟩ else
  let r2 := h.keyGen c.RemoteVPS runner r1.2
  let err := r2.1.2
  if err ≠ none then ⟨err, c, r2.2⟩ else
  -- Step 3/4: Starting daemon
  if err ≠ none then ⟨err, c, r2.2⟩ else
  let r3 := DaemonUp env runner c.version c.RemoteVPS.IP c.RemoteVPS.Daemon.Port r2.2
  let err := r3.1
  if err ≠ none then ⟨err, c, r3.2⟩ else
  -- Step 4/4: Fetching daemon API token
  let r4 := h.getDaemonAPIToken c.RemoteVPS runner c.version r3.2
  let token := r4.1.1
  let err := r4.1.2
  if err ≠ none then ⟨err, c, r4.2⟩ else
  ⟨none, c.setToken token, r4.2⟩

/-- Phase `k` of the bootstrap (1 install runtime, 2 generate keypair, 3 start
daemon, 4 fetch token), as the call `BootstrapRemote` makes for it, keeping
the error and the session calls only. -/
def phase (env : Env) (h : Helpers) (c : Client) (runner : SSHSession) (k : Nat)
    (calls : List Call) : Option GoError × List Call :=
  match k with
  | 1 => h.installDocker c.RemoteVPS runner calls
  | 2 => let r := h.keyGen c.RemoteVPS runner calls; (r.1.2, r.2)
  | 3 => DaemonUp env runner c.version c.RemoteVPS.IP c.RemoteVPS.Daemon.Port calls
  | 4 => let r := h.getDaemonAPIToken c.RemoteVPS runner c.version calls; (r.1.2, r.2)
  | _ => (none, calls)

/-- The session calls after phases `1..n` have been run in that order, starting
from `calls`. -/
def callsAfter (env : Env) (h : Helpers) (c : Client) (runner : SSHSession)
    (calls : List Call) : Nat → List Call
  | 0 => calls
  | n + 1 => (phase env h c runner (n + 1) (callsAfter env h c runner calls n)).2

/-- Modelled from the spec: `installDocker` is a method of the remote profile
that is not in `client.go`.  Phase 1 of §4.2 runs the installation script for
the container engine, buffered; the script is the asset `bootstrap/docker.sh`
of `TestInstallDocker`, loaded and run the way `DaemonDown` loads and runs its
script. -/
def installDocker (env : Env) (_remote : RemoteVPS) (session : SSHSession)
    (calls : List Call) : Option GoError × List Call :=
  match env.Asset "client/bootstrap/docker.sh" with
  | .error err => (some err, calls)
  | .ok installDockerSh =>
    let r := session.doRun installDockerSh calls
    (r.1.err, r.2)

/-- Modelled from the spec: `keyGen` is not in `client.go`.  Phase 2 of §4.2
runs the key-generation script (`bootstrap/keygen.sh` in `TestBootstrap`),
buffered, and returns the public key, which is what the script printed. -/
def keyGen (env : Env) (_remote : RemoteVPS) (session : SSHSession)
    (calls : List Call) : (String × Option GoError) × List Call :=
  match env.Asset "client/bootstrap/keygen.sh" with
  | .error err => (("", some err), calls)
  | .ok scriptBytes =>
    let r := session.doRun scriptBytes calls
    match r.1.err with
    | some err => (("", some err), r.2)
    | none => ((r.1.stdout, none), r.2)

/-- Modelled from the spec: `getDaemonAPIToken` is not in `client.go`.  Phase 4
of §4.2 runs the token-retrieval script (`bootstrap/token.sh` in `TestKeyGen`)
parameterized by `daemonVersion`, buffered, and returns the token, which is
what the script printed. -/
def getDaemonAPIToken (env : Env) (_remote : RemoteVPS) (session : SSHSession)
    (daemonVersion : String) (calls : List Call) : (String × Option GoError) × List Call :=
  match env.Asset "client/bootstrap/token.sh" with
  | .error err => (("", some err), calls)
  | .ok scriptBytes =>
    let daemonCmdStr := env.Sprintf scriptBytes [daemonVersion]
    let r := session.doRun daemonCmdStr calls
    match r.1.err with
    | some err => (("", some err), r.2)
    | none => ((r.1.stdout, none), r.2)

/-- The three helpers as the spec describes them. -/
def specHelpers (env : Env) : Helpers where
  installDocker := installDocker env
  keyGen := keyGen env
  getDaemonAPIToken := getDaemonAPIToken env

/-! ## Status badge -/

/-- `api.DeploymentStatus`, with the fields `status_test.go` sets. -/
structure DeploymentStatus where
  Branch : String
  CommitHash : String
  CommitMessage : String
  Containers : List String
  BuildContainerActive : Bool
  InertiaVersion : String
deriving DecidableEq, Repr

/-- The two fields of the badge object that §4.5 specifies (`shieldsIOData`
in `status_test.go`). -/
structure shieldsIOData where
  Message : String
  IsError : Bool
deriving DecidableEq, Repr

/-- What the status handler answers: a status code and one of the two bodies
of §4.5, or the message of a server error. -/
inductive StatusResponse where
  | badge (code : Nat) (data : shieldsIOData)
  | status (code : Nat) (status : DeploymentStatus) (newVersionAvailable : Option String)
  | failure (code : Nat) (message : String)
deriving DecidableEq, Repr

/-- Modelled from the spec: the daemon's `statusHandler` is not in src (only
`status_test.go` is).  §4.5 `status`: one query of the deployment
(`GetStatus`, here its result `(status, queryError)`), answered either as the
full status object or, when the query flag `badge` asks for it, as the badge
with the mappings build in progress → `("deploying", false)`, no containers
and no build → `("project offline", true)`, one or more containers →
`("deployed", false)`, query failed → `("errored", true)`.  §7: a failed
query is a server error for the full status and still a badge otherwise.
`version` is the daemon's own version and `latest` the latest known release.
The checks are made in the order of §8: the error first, then the build. -/
def statusHandler (version latest : String) (status : DeploymentStatus)
    (queryError : Option GoError) (badge : Bool) : StatusResponse :=
  if badge then
    match queryError with
    | some _ => .badge 200 ⟨"errored", true⟩
    | none =>
      if status.BuildContainerActive then .badge 200 ⟨"deploying", false⟩
      else if status.Containers.length = 0 then .badge 200 ⟨"project offline", true⟩
      else .badge 200 ⟨"deployed", false⟩
  else
    match queryError with
    | some err => .failure 500 err
    | none => .status 200 status (if version ≠ latest then some latest else none)

/-! ## Control-plane client -/

/-- `common.GitOptions`, with the fields `Up` sets. -/
structure GitOptions where
  RemoteURL : String
  Branch : String
deriving DecidableEq, Repr

/-- `common.DaemonRequest`, with the fields `Up` and `Logs` set; a field that a
composite literal leaves out has its zero value. -/
structure DaemonRequest where
  Stream : Bool := false
  Container : String := ""
  Project : String := ""
  BuildType : String := ""
  Secret : String := ""
  GitOptions : Option GitOptions := none
deriving DecidableEq, Repr

/-- `common.UserRequest`. -/
structure UserRequest where
  Username : String := ""
  Password : String := ""
  Admin : Bool := false
deriving DecidableEq, Repr

/-- A non-nil `requestBody interface{}` of `request`: a pointer to one of the
two request structs. -/
inductive Payload where
  | daemon (r : DaemonRequest)
  | user (r : UserRequest)
deriving DecidableEq, Repr

/-- The parts of `url.URL` that `request` touches. -/
structure URL where
  Scheme : String
  Host : String
  Path : String
deriving DecidableEq, Repr

/-- An `http.Header` restricted to one value per key, in insertion order. -/
abbrev Header := List (String × String)

/-- `Header.Set(key, value)`: replaces what the key held.  The keys the client
sets are already in canonical form. -/
def Header.Set (h : Header) (key value : String) : Header :=
  h.filter (fun kv => kv.1 ≠ key) ++ [(key, value)]

/-- The value a header holds for a key, if any. -/
def Header.Get (h : Header) (key : String) : Option String :=
  (h.find? (fun kv => kv.1 = key)).map (fun kv => kv.2)

/-- An `http.Request`: method, URL, header and body (`none` is a nil body). -/
structure Request where
  Method : String
  URL : URL
  Header : Header
  Body : Option String
deriving DecidableEq, Repr

/-- An `http.Response`, reduced to status code and body. -/
structure Response where
  StatusCode : Nat
  Body : String
deriving DecidableEq, Repr

/-- What `request` and the operations return: `(*http.Response, error)`. -/
abbrev HTTPResult := Option Response × Option GoError

/-- The library functions `request` and `Up` call: `url.Parse`, `path.Join`,
`URL.String`, `json.Marshal`, the method check of `http.NewRequest`, and
`common.GetSSHRemoteURL`. -/
structure Lib where
  urlParse : String → Except GoError URL
  pathJoin : String → String → String
  urlString : URL → String
  jsonMarshal : Payload → Except GoError String
  validMethod : String → Bool
  GetSSHRemoteURL : String → String

/-- The network seen through `http.Client.Do`: the answer to a request, given
the requests sent before it. -/
structure Transport where
  Do : List Request → Request → HTTPResult

/-- `http.NewRequest(method, url, body)`: an empty method is `GET`, an invalid
method or an unparsable URL is an error, the header starts empty and the body
is the reader given (`none` for a nil reader). -/
def NewRequest (lib : Lib) (method url : String) (body : Option String) :
    Except GoError Request :=
  let method := if method = "" then "GET" else method
  if ¬ lib.validMethod method then .error ("net/http: invalid method " ++ method.quote) else
  match lib.urlParse url with
  | .error err => .error err
  | .ok u => .ok { Method := method, URL := u, Header := [], Body := body }

/-- Modelled from the spec: `RemoteVPS.GetIPAndPort` is not in src; §4.3 joins
the path onto `https://{host}:{daemonPort}`. -/
def GetIPAndPort (remote : RemoteVPS) : String :=
  remote.IP ++ ":" ++ remote.Daemon.Port

/-- `Client.request` (client.go 208-246).  `sent` lists the requests handed to
the transport so far. -/
def request (lib : Lib) (tr : Transport) (c : Client) (method endpoint : String)
    (requestBody : Option Payload) (sent : List Request) : HTTPResult × List Request :=
  -- Assemble URL
  match lib.urlParse ("https://" ++ GetIPAndPort c.RemoteVPS) with
  | .error err => ((none, some err), sent)
  | .ok url =>
    let url := { url with Path := lib.pathJoin url.Path endpoint }
    let urlString := lib.urlString url
    -- Assemble request
    let payload : Except GoError (Option String) :=
      match requestBody with
      | some b =>
        match lib.jsonMarshal b with
        | .error err => .error err
        | .ok body => .ok (some body)
      | none => .ok none
    match payload with
    | .error err => ((none, some err), sent)
    | .ok payload =>
      match NewRequest lib method urlString payload with
      | .error err => ((none, some err), sent)
      | .ok req =>
        let req := { req with Header := req.Header.Set "Content-Type" "application/json" }
        let req := { req with
          Header := req.Header.Set "Authorization" ("Bearer " ++ c.RemoteVPS.Daemon.Token) }
        -- Make HTTPS request
        (tr.Do sent req, sent ++ [req])

/-- `strings.Contains(s, substr)`. -/
def stringsContains (s substr : String) : Bool :=
  s.toList.tails.any (fun t => substr.toList.isPrefixOf t)

/-- `Client.Up` (client.go 131-149). -/
def Up (lib : Lib) (tr : Transport) (c : Client) (gitRemote buildType : String)
    (stream : Bool) (sent : List Request) : HTTPResult × List Request :=
  let buildType := if buildType = "" then c.buildType else buildType
  let reqContent : DaemonRequest :=
    { Stream := stream
      Project := c.project
      BuildType := buildType
      Secret := c.RemoteVPS.Daemon.Secret
      GitOptions := some
        { RemoteURL := lib.GetSSHRemoteURL gitRemote
          Branch := c.RemoteVPS.Branch } }
  request lib tr c "POST" "/up" (some (.daemon reqContent)) sent

/-- `Client.Down` (client.go 151-155). -/
def Down (lib : Lib) (tr : Transport) (c : Client) (sent : List Request) :
    HTTPResult × List Request :=
  request lib tr c "POST" "/down" none sent

/-- `Client.Status` (client.go 157-165). -/
def Status (lib : Lib) (tr : Transport) (c : Client) (sent : List Request) :
    HTTPResult × List Request :=
  let r := request lib tr c "GET" "/status" none sent
  match r.1.2 with
  | some err =>
    if stringsContains err "EOF" || stringsContains err "refused" then
      ((none, some ("daemon on remote " ++ c.RemoteVPS.Name ++
        " appears offline or inaccessible")), r.2)
    else r
  | none => r

/-- `Client.Reset` (client.go 167-171). -/
def Reset (lib : Lib) (tr : Transport) (c : Client) (sent : List Request) :
    HTTPResult × List Request :=
  request lib tr c "POST" "/reset" none sent

/-- `Client.Logs` (client.go 173-180). -/
def Logs (lib : Lib) (tr : Transport) (c : Client) (stream : Bool) (container : String)
    (sent : List Request) : HTTPResult × List Request :=
  let reqContent : DaemonRequest := { Stream := stream, Container := container }
  request lib tr c "GET" "/logs" (some (.daemon reqContent)) sent

/-- `Client.AddUser` (client.go 182-190). -/
def AddUser (lib : Lib) (tr : Transport) (c : Client) (username password : String)
    (admin : Bool) (sent : List Request) : HTTPResult × List Request :=
  let reqContent : UserRequest :=
    { Username := username, Password := password, Admin := admin }
  request lib tr c "POST" "/user/adduser" (some (.user reqContent)) sent

/-- `Client.RemoveUser` (client.go 192-196). -/
def RemoveUser (lib : Lib) (tr : Transport) (c : Client) (username : String)
    (sent : List Request) : HTTPResult × List Request :=
  let reqContent : UserRequest := { Username := username }
  request lib tr c "POST" "/user/removeuser" (some (.user reqContent)) sent

/-- `Client.ResetUsers` (client.go 198-201). -/
def ResetUsers (lib : Lib) (tr : Transport) (c : Client) (sent : List Request) :
    HTTPResult × List Request :=
  request lib tr c "POST" "/user/resetusers" none sent

/-- `Client.ListUsers` (client.go 203-206). -/
def ListUsers (lib : Lib) (tr : Transport) (c : Client) (sent : List Request) :
    HTTPResult × List Request :=
  request lib tr c "GET" "/user/listusers" none sent

/-- The operations of the control-plane client, with their arguments. -/
inductive Operation where
  | up (gitRemote buildType : String) (stream : Bool)
  | down
  | status
  | reset
  | logs (stream : Bool) (container : String)
  | addUser (username password : String) (admin : Bool)
  | removeUser (username : String)
  | resetUsers
  | listUsers
deriving DecidableEq, Repr

/-- The method of `Client` that carries out an operation. -/
def Operation.perform (lib : Lib) (tr : Transport) (c : Client) :
    Operation → List Request → HTTPResult × List Request
  | .up gitRemote buildType stream => Up lib tr c gitRemote buildType stream
  | .down => Down lib tr c
  | .status => Status lib tr c
  | .reset => Reset lib tr c
  | .logs stream container => Logs lib tr c stream container
  | .addUser username password admin => AddUser lib tr c username password admin
  | .removeUser username => RemoveUser lib tr c username
  | .resetUsers => ResetUsers lib tr c
  | .listUsers => ListUsers lib tr c

/-- The payload of an operation: the `reqContent` its method builds, `none`
for the methods that pass `nil`. -/
def Operation.payload (lib : Lib) (c : Client) : Operation → Option Payload
  | .up gitRemote buildType stream =>
    some (.daemon
      { Stream := stream
        Project := c.project
        BuildType := if buildType = "" then c.buildType else buildType
        Secret := c.RemoteVPS.Daemon.Secret
        GitOptions := some
          { RemoteURL := lib.GetSSHRemoteURL gitRemote
            Branch := c.RemoteVPS.Branch } })
  | .logs stream container => some (.daemon { Stream := stream, Container := container })
  | .addUser username password admin =>
    some (.user { Username := username, Password := password, Admin := admin })
  | .removeUser username => some (.user { Username := username })
  | .down | .status | .reset | .resetUsers | .listUsers => none

/-- The HTTP method an operation passes to `request`. -/
def Operation.method : Operation → String
  | .up _ _ _ => "POST"
  | .down => "POST"
  | .status => "GET"
  | .reset => "POST"
  | .logs _ _ => "GET"
  | .addUser _ _ _ => "POST"
  | .removeUser _ => "POST"
  | .resetUsers => "POST"
  | .listUsers => "GET"

/-- The endpoint an operation passes to `request`. -/
def Operation.endpoint : Operation → String
  | .up _ _ _ => "/up"
  | .down => "/down"
  | .status => "/status"
  | .reset => "/reset"
  | .logs _ _ => "/logs"
  | .addUser _ _ _ => "/user/adduser"
  | .removeUser _ => "/user/removeuser"
  | .resetUsers => "/user/resetusers"
  | .listUsers => "/user/listusers"

/-- The error that `Status` returns for a daemon it cannot reach. -/
def offlineError (c : Client) : GoError :=
  "daemon on remote " ++ c.RemoteVPS.Name ++ " appears offline or inaccessible"

/-- An error text that `Status` takes for an unreachable daemon. -/
def looksOffline (err : GoError) : Bool :=
  stringsContains err "EOF" || stringsContains err "refused"

/-! ## Streaming copy loop -/

/-- A byte, as a natural number below 256. -/
abbrev Byte := Nat

/-- What `Flush` does to its source and its sink, in order: a `Read` of the
source with the bytes it delivered and its error, a `Close` of the source, a
`Write` to the sink with the bytes given and the error it returned, a `Flush`
of the sink. -/
inductive Event where
  | read (data : List Byte) (err : Option GoError)
  | close
  | write (data : List Byte) (err : Option GoError)
  | flush
deriving DecidableEq, Repr

/-- An `io.ReadCloser`.  `Read events n` is the answer to `Read(p)` with
`len(p) = n` after `events`: the bytes placed in `p[0:k]` (so `k` is their
number, at most `n` by the contract of `io.Reader`) and the error; a reader
may return bytes together with an error. -/
structure ReadCloser where
  Read : List Event → Nat → List Byte × Option GoError

/-- An `io.Writer`: the answer `(n, err)` of `Write(data)` after `events`, and
whether the writer is also an `http.Flusher`. -/
structure Writer where
  Write : List Event → List Byte → Nat × Option GoError
  isFlusher : Bool

/-- `Flush` (util.go 61-79) on a buffer of `bufferLen` bytes.  The contents of
the buffer between calls are not modelled: `Flush` zeroes what it used. -/
def Flush (w : Writer) (rc : ReadCloser) (bufferLen : Nat) (events : List Event) :
    Option GoError × List Event :=
  let r := rc.Read events bufferLen
  let events := events ++ [Event.read r.1 r.2]
  match r.2 with
  | some err => (some err, events ++ [Event.close])
  | none =>
    let data := r.1
    let events := events ++ [Event.write data (w.Write events data).2]
    let events := if w.isFlusher then events ++ [Event.flush] else events
    (none, events)

/-- `FlushRoutine` (util.go 47-59): `Flush` on a buffer of 100 bytes until it
returns an error.  `fuel` bounds the number of iterations; `none` means the
loop was still running when the fuel ran out. -/
def FlushRoutine (w : Writer) (rc : ReadCloser) : Nat → List Event → Option (List Event)
  | 0, _ => none
  | fuel + 1, events =>
    let r := Flush w rc 100 events
    match r.1 with
    | some _ => some r.2
    | none => FlushRoutine w rc fuel r.2

/-- The bytes the source delivered: those of every `Read`, in order. -/
def delivered : List Event → List Byte
  | [] => []
  | .read data _ :: es => data ++ delivered es
  | _ :: es => delivered es

/-- The bytes written to the sink: those of every `Write`, in order. -/
def written : List Event → List Byte
  | [] => []
  | .write data _ :: es => data ++ written es
  | _ :: es => written es

/-- A `Read` or a `Write` that returned an error. -/
def Event.failed : Event → Bool
  | .read _ (some _) => true
  | .write _ (some _) => true
  | _ => false

/-- A `Read` or a `Write`. -/
def Event.isTransfer : Event → Bool
  | .read _ _ => true
  | .write _ _ => true
  | _ => false

/-- In a run of the copy loop, every failed `Read` and every failed `Write` is
followed by a `Close` of the source and by no further `Read` or `Write`. -/
def closesAndStopsAtFailure : List Event → Bool
  | [] => true
  | e :: es =>
    (!e.failed || (es.contains Event.close && es.all (fun x => !x.isTransfer)))
      && closesAndStopsAtFailure es

/-! ## Test doubles -/

/-- An asset table that knows the five bootstrap scripts, and a formatter
that appends its operands to the format. -/
def testEnv : Env where
  Asset := fun name =>
    if name = "client/bootstrap/docker.sh" then .ok "docker"
    else if name = "client/bootstrap/keygen.sh" then .ok "keygen"
    else if name = "client/bootstrap/daemon-up.sh" then .ok "up"
    else if name = "client/bootstrap/daemon-down.sh" then .ok "down"
    else if name = "client/bootstrap/token.sh" then .ok "token"
    else .error "Asset not found"
  Sprintf := fun format args => args.foldl (fun acc a => acc ++ " " ++ a) format

/-- An asset table without any script. -/
def emptyEnv : Env where
  Asset := fun name => .error ("Asset " ++ name ++ " not found")
  Sprintf := fun format _ => format

/-- A session on which every command succeeds and prints `out`. -/
def mockSSHRunner : SSHSession where
  Run := fun _ _ => ⟨"out", "", none⟩
  RunStream := fun _ _ _ => none

/-- A session whose buffered commands succeed and whose streamed commands fail. -/
def streamFailRunner : SSHSession where
  Run := fun _ _ => ⟨"out", "", none⟩
  RunStream := fun _ _ _ => some "exit status 1"

/-- A session whose first command succeeds and whose later commands fail. -/
def secondFailRunner : SSHSession where
  Run := fun calls _ => if calls.length = 0 then ⟨"", "", none⟩ else ⟨"", "oops", some "exit status 2"⟩
  RunStream := fun _ _ _ => none

/-- The remote of `getInstrumentedTestRemote`, with a name, a token and a secret. -/
def testRemote : RemoteVPS where
  Name := "gcloud"
  IP := "0.0.0.0"
  User := "root"
  PEM := "../test_env/test_key"
  Branch := "master"
  Daemon := { Port := "8081", SSHPort := "22", Token := "old", Secret := "s3cr3t" }

/-- A client on `testRemote`. -/
def testClient : Client where
  RemoteVPS := testRemote
  version := "test"
  project := "proj"
  buildType := "docker-compose"

/-- Library functions for the tests: URLs are kept whole in `Host`, paths are
concatenated, JSON is a tag. -/
def testLib : Lib where
  urlParse := fun s => .ok ⟨"https", s, ""⟩
  pathJoin := fun a b => a ++ b
  urlString := fun u => u.Host ++ u.Path
  jsonMarshal := fun p =>
    match p with
    | .daemon r => .ok ("daemon:" ++ r.Container)
    | .user r => .ok ("user:" ++ r.Username)
  validMethod := fun m => m = "GET" || m = "POST"
  GetSSHRemoteURL := fun s => s

/-- A transport on which every request is refused. -/
def refusedTransport : Transport where
  Do := fun _ _ => (none, some "dial tcp 0.0.0.0:8081: connect: connection refused")

/-- A transport on which every request fails on a timeout. -/
def timeoutTransport : Transport where
  Do := fun _ _ => (none, some "context deadline exceeded")

/-- A transport that answers every request with 200. -/
def okTransport : Transport where
  Do := fun _ _ => (some ⟨200, "ok"⟩, none)

/-- A sink that accepts everything and is not a flusher. -/
def okWriter : Writer where
  Write := fun _ data => (data.length, none)
  isFlusher := false

/-- A sink whose consumer has gone: every write fails. -/
def brokenWriter : Writer where
  Write := fun _ _ => (0, some "write: broken pipe")
  isFlusher := false

/-- A source whose only `Read` delivers three bytes together with `io.EOF`. -/
def dataWithEOF : ReadCloser where
  Read := fun _ _ => ([97, 98, 99], some "EOF")

/-- A source that delivers `[1]`, then `[2]`, then `io.EOF` without bytes. -/
def twoChunks : ReadCloser where
  Read := fun events _ =>
    if (events.filter Event.isTransfer).length = 0 then ([1], none)
    else if (events.filter Event.isTransfer).length = 2 then ([2], none)
    else ([], some "EOF")

/-! ## Client construction -/

/-- The operator-side configuration (`Config`), with the field of
`getTestConfig` and the remotes it holds. -/
structure Config where
  Version : String
  Remotes : List RemoteVPS
deriving DecidableEq, Repr

/-- Modelled from the spec: `Config.GetRemote` is not in src.  §3: a remote
profile is identified by its name and owned by the configuration; the pair
`(remote, found)` is `some remote` when the configuration has a remote of that
name and `none` (that is `found = false`) when it has none. -/
def Config.GetRemote (config : Config) (remoteName : String) : Option RemoteVPS :=
  config.Remotes.find? (fun r => r.Name = remoteName)

/-- `NewClient` (client.go 25-36).  The fields the composite literal leaves
out are empty strings. -/
def NewClient (remoteName : String) (config : Config) : Option Client × Bool :=
  match config.GetRemote remoteName with
  | none => (none, false)
  | some remote =>
    (some { RemoteVPS := remote, version := "", project := "", buildType := "" }, false)

/-! ## Daemon start-up -/

/-- The outcome of `os.Stat` on a path, as far as `os.IsNotExist` tells the
cases apart. -/
inductive StatResult where
  | found
  | notExist
  | failed (err : GoError)
deriving DecidableEq, Repr

/-- `os.IsNotExist(err)` on the error of an `os.Stat`. -/
def osIsNotExist : StatResult → Bool
  | .notExist => true
  | _ => false

/-- The handler functions that `run` names. -/
inductive HandlerName where
  | upHandler
  | downHandler
  | statusHandler
  | resetHandler
  | logHandler
  | HealthCheckHandler
  | gitHubWebHookHandler
  | FileServer (dir : String)
deriving DecidableEq, Repr

/-- A handler as `run` registers it: wrapped by `auth.Authorized(h,
auth.GetAPIPrivateKey)`, bare, or behind `http.StripPrefix`. -/
inductive Handler where
  | Authorized (h : HandlerName)
  | bare (h : HandlerName)
  | strip (leading : String) (h : HandlerName)
deriving DecidableEq, Repr

/-- Whether the handler is wrapped by the bearer-token guard. -/
def Handler.guarded : Handler → Bool
  | .Authorized _ => true
  | _ => false

/-- Modelled from the spec: `auth.Authorized` is not in src.  §4.4: the guard
compares the bearer token of the request with the daemon's token and rejects
the request on mismatch or absence; otherwise the wrapped handler runs.  The
result is the handler function a request reaches, if any. -/
def Handler.reaches (tokenMatches : Bool) : Handler → Option HandlerName
  | .Authorized h => if tokenMatches then some h else none
  | .bare h => some h
  | .strip _ h => some h

/-- One entry of an `http.ServeMux`. -/
structure Route where
  pattern : String
  handler : Handler
deriving DecidableEq, Repr

/-- An `http.ServeMux`: its entries in the order of registration. -/
abbrev ServeMux := List Route

/-- `mux.HandleFunc(pattern, handler)` and `mux.Handle(pattern, handler)`. -/
def ServeMux.Handle (m : ServeMux) (pattern : String) (handler : Handler) : ServeMux :=
  m ++ [⟨pattern, handler⟩]

/-- `pathMatch(pattern, path)` of `net/http`: a pattern that ends in `/`
matches the paths it begins, any other pattern matches itself only. -/
def pathMatch (pattern path : String) : Bool :=
  if pattern.toList.getLast? = some '/' then pattern.toList.isPrefixOf path.toList
  else pattern = path

/-- `ServeMux.match`: among the entries whose pattern matches the path, the
one with the longest pattern. -/
def ServeMux.lookup (m : ServeMux) (path : String) : Option Route :=
  m.foldl
    (fun best r =>
      if pathMatch r.pattern path then
        match best with
        | none => some r
        | some b => if r.pattern.length > b.pattern.length then some r else some b
      else best)
    none

/-- specify location of SSL certificate -/
def sslDirectory : String := "/app/host/ssl/"

/-- The constant `daemonSSLCert` of daemon.go. -/
def daemonSSLCert : String := sslDirectory ++ "daemon.cert"

/-- The constant `daemonSSLKey` of daemon.go. -/
def daemonSSLKey : String := sslDirectory ++ "daemon.key"

/-- What `run` finds outside itself: the result of `docker.NewEnvClient`, of
`cli.ImagePull` on the docker-compose image, of `os.Stat` on a path, and of
`auth.GenerateCertificate(certPath, keyPath, host, method)`. -/
structure DaemonEnv where
  NewEnvClient : Option GoError
  ImagePull : Option GoError
  Stat : String → StatResult
  GenerateCertificate : String → String → String → String → Option GoError

/-- What `run` does to the outside, in order. -/
inductive DaemonEvent where
  | ImagePull
  | Close
  | GenerateCertificate (certPath keyPath host method : String)
  | ListenAndServeTLS (addr certFile keyFile : String) (handler : ServeMux)
deriving DecidableEq, Repr

/-- The `mux` that `run` builds (daemon.go 63-76). -/
def mux : ServeMux :=
  -- API endpoints
  let m : ServeMux := []
  let m := m.Handle "/up" (.Authorized .upHandler)
  let m := m.Handle "/down" (.Authorized .downHandler)
  let m := m.Handle "/status" (.Authorized .statusHandler)
  let m := m.Handle "/reset" (.Authorized .resetHandler)
  let m := m.Handle "/logs" (.Authorized .logHandler)
  let m := m.Handle "/health-check" (.Authorized .HealthCheckHandler)
  -- GitHub webhook endpoint
  let m := m.Handle "/" (.bare .gitHubWebHookHandler)
  -- Inertia web
  m.Handle "/admin/" (.strip "/admin/" (.FileServer "/app/inertia-web"))

/-- The function `run` of daemon.go (25-86): the events it causes, the last of
which is the call of `http.ListenAndServeTLS` when `run` gets that far. -/
def run (env : DaemonEnv) (host port _version : String) : List DaemonEvent :=
  -- Download docker-compose image
  match env.NewEnvClient with
  | some _ => []
  | none =>
    match env.ImagePull with
    | some _ => [.ImagePull, .Close]
    | none =>
      -- Check if the cert files are available.
      let certNotPresent := osIsNotExist (env.Stat daemonSSLCert)
      let keyNotPresent := osIsNotExist (env.Stat daemonSSLKey)
      let sslRequirementsPresent := !(keyNotPresent && certNotPresent)
      let serve := DaemonEvent.ListenAndServeTLS (":" ++ port) daemonSSLCert daemonSSLKey mux
      -- If they are not available, generate new ones.
      if !sslRequirementsPresent then
        match env.GenerateCertificate daemonSSLCert daemonSSLKey (host ++ ":" ++ port) "RSA" with
        | some _ =>
          [.ImagePull, .Close,
            .GenerateCertificate daemonSSLCert daemonSSLKey (host ++ ":" ++ port) "RSA"]
        | none =>
          [.ImagePull, .Close,
            .GenerateCertificate daemonSSLCert daemonSSLKey (host ++ ":" ++ port) "RSA", serve]
      else [.ImagePull, .Close, serve]

/-- Whether an event is the call of `http.ListenAndServeTLS`. -/
def DaemonEvent.isServe : DaemonEvent → Bool
  | .ListenAndServeTLS _ _ _ _ => true
  | _ => false

/-- Whether an event is the call of `auth.GenerateCertificate`. -/
def DaemonEvent.isGenerate : DaemonEvent → Bool
  | .GenerateCertificate _ _ _ _ => true
  | _ => false

/-! ## Test doubles for the daemon and the configuration -/

/-- A configuration that holds `testRemote`. -/
def testConfig : Config where
  Version := "test"
  Remotes := [testRemote]

/-- A host where docker answers, certificate generation works, and the SSL
files are as `Stat` says. -/
def daemonEnvWith (stat : String → StatResult) : DaemonEnv where
  NewEnvClient := none
  ImagePull := none
  Stat := stat
  GenerateCertificate := fun _ _ _ _ => none

/-- The certificate file is there, the key file is not. -/
def certOnly : String → StatResult :=
  fun path => if path = "/app/host/ssl/daemon.cert" then .found else .notExist

/-- Both SSL files are there. -/
def certAndKey : String → StatResult :=
  fun _ => .found

/-! ## Bootstrap sequencer: theorems -/

/-- C1.  For every `k` in `1..4`: if phases `1..k-1` succeed and phase `k` fails
with the error `e`, then `BootstrapRemote` returns exactly `e`, and the calls
made on the session are those of phases `1..k` run in that order and of no
later phase. -/
theorem BootstrapRemote_phase_failure (env : Env) (h : Helpers) (c : Client)
    (runner : SSHSession) (calls : List Call) (k : Nat) (e : GoError)
    (hk1 : 1 ≤ k) (hk4 : k ≤ 4)
    (hprev : ∀ j, 1 ≤ j → j < k →
      (phase env h c runner j (callsAfter env h c runner calls (j - 1))).1 = none)
    (hfail : (phase env h c runner k (callsAfter env h c runner calls (k - 1))).1 = some e) :
    (BootstrapRemote env h c runner calls).err = some e ∧
    (BootstrapRemote env h c runner calls).calls = callsAfter env h c runner calls k := by
  interval_cases k
  · simp only [phase, callsAfter] at hfail ⊢
    simp [BootstrapRemote, hfail]
  · have h1 := hprev 1 (by decide) (by decide)
    simp only [phase, callsAfter] at h1 hfail ⊢
    simp [BootstrapRemote, h1, hfail]
  · have h1 := hprev 1 (by decide) (by decide)
    have h2 := hprev 2 (by decide) (by decide)
    simp only [phase, callsAfter] at h1 h2 hfail ⊢
    simp [BootstrapRemote, h1, h2, hfail]
  · have h1 := hprev 1 (by decide) (by decide)
    have h2 := hprev 2 (by decide) (by decide)
    have h3 := hprev 3 (by decide) (by decide)
    simp only [phase, callsAfter] at h1 h2 h3 hfail ⊢
    simp [BootstrapRemote, h1, h2, h3, hfail]

/-- Witness of C1: on a session whose streamed commands fail, phases 1 and 2
succeed, phase 3 fails, and the bootstrap returns that error after the three
calls of phases 1 to 3. -/
theorem BootstrapRemote_phase_failure_witness :
    (BootstrapRemote testEnv (specHelpers testEnv) testClient streamFailRunner []).err
      = some "exit status 1" ∧
    (BootstrapRemote testEnv (specHelpers testEnv) testClient streamFailRunner []).calls
      = callsAfter testEnv (specHelpers testEnv) testClient streamFailRunner [] 3 :=
  BootstrapRemote_phase_failure testEnv (specHelpers testEnv) testClient streamFailRunner []
    3 "exit status 1" (by decide) (by decide)
    (by intro j h1 h3; interval_cases j <;> decide) (by decide)

/-- C2.  When the four scripts load and the session answers each of the four
commands without error, `BootstrapRemote` (with the helpers as the spec
describes them) returns no error and makes exactly four calls on the session,
in this order: `Run` of the docker install script, `Run` of the key-generation
script, `RunStream` of the daemon-up script formatted with (version, daemon
port, host IP), and `Run` of the token script formatted with the version. -/
theorem BootstrapRemote_success_calls (env : Env) (c : Client) (runner : SSHSession)
    (calls : List Call) (docker keygen up token : String)
    (hdocker : env.Asset "client/bootstrap/docker.sh" = .ok docker)
    (hkeygen : env.Asset "client/bootstrap/keygen.sh" = .ok keygen)
    (hup : env.Asset "client/bootstrap/daemon-up.sh" = .ok up)
    (htoken : env.Asset "client/bootstrap/token.sh" = .ok token)
    (h1 : (runner.Run calls docker).err = none)
    (h2 : (runner.Run (calls ++ [Call.run docker]) keygen).err = none)
    (h3 : runner.RunStream (calls ++ [Call.run docker, Call.run keygen])
      (env.Sprintf up [c.version, c.RemoteVPS.Daemon.Port, c.RemoteVPS.IP]) false = none)
    (h4 : (runner.Run (calls ++ [Call.run docker, Call.run keygen,
        Call.runStream (env.Sprintf up [c.version, c.RemoteVPS.Daemon.Port, c.RemoteVPS.IP]) false])
      (env.Sprintf token [c.version])).err = none) :
    (BootstrapRemote env (specHelpers env) c runner calls).err = none ∧
    (BootstrapRemote env (specHelpers env) c runner calls).calls =
      calls ++ [Call.run docker, Call.run keygen,
        Call.runStream (env.Sprintf up [c.version, c.RemoteVPS.Daemon.Port, c.RemoteVPS.IP]) false,
        Call.run (env.Sprintf token [c.version])] := by
  simp [BootstrapRemote, specHelpers, installDocker, keyGen, getDaemonAPIToken, DaemonUp,
    SSHSession.doRun, SSHSession.doRunStream, hdocker, hkeygen, hup, htoken, h1, h2, h3, h4]

/-- Witness of C2: the bootstrap of `TestBootstrap`, on a session where every
command succeeds. -/
theorem BootstrapRemote_success_calls_witness :
    (BootstrapRemote testEnv (specHelpers testEnv) testClient mockSSHRunner []).err = none ∧
    (BootstrapRemote testEnv (specHelpers testEnv) testClient mockSSHRunner []).calls =
      [] ++ [Call.run "docker", Call.run "keygen",
        Call.runStream (testEnv.Sprintf "up" [testClient.version,
          testClient.RemoteVPS.Daemon.Port, testClient.RemoteVPS.IP]) false,
        Call.run (testEnv.Sprintf "token" [testClient.version])] :=
  BootstrapRemote_success_calls testEnv testClient mockSSHRunner [] "docker" "keygen" "up" "token"
    (by rfl) (by rfl) (by rfl) (by rfl) (by decide) (by decide) (by decide) (by decide)

/-- C3.  `DaemonUp(session, daemonVersion, host, daemonPort)`: when the
daemon-up template loads, exactly one call is made on the session, a
`RunStream` with `interactive = false` of the template formatted with
(daemonVersion, daemonPort, host) in that order, and its result is returned
unchanged; when the template does not load, that error is returned and no
call is made. -/
theorem DaemonUp_runs_one_stream (env : Env) (session : SSHSession)
    (daemonVersion host daemonPort : String) (calls : List Call) :
    match env.Asset "client/bootstrap/daemon-up.sh" with
    | .ok script =>
      DaemonUp env session daemonVersion host daemonPort calls =
        (session.RunStream calls (env.Sprintf script [daemonVersion, daemonPort, host]) false,
          calls ++ [Call.runStream (env.Sprintf script [daemonVersion, daemonPort, host]) false])
    | .error err => DaemonUp env session daemonVersion host daemonPort calls = (some err, calls) := by
  unfold DaemonUp
  cases env.Asset "client/bootstrap/daemon-up.sh" <;> simp [SSHSession.doRunStream]

/-- C8.  `BootstrapRemote` assigns the profile's API token only when all four
phases succeed, and then the client is the one before the call with the token
replaced by the value the token-fetch phase returned; if a phase fails the
client, and so its token, is what it was before the call. -/
theorem BootstrapRemote_token (env : Env) (h : Helpers) (c : Client) (runner : SSHSession)
    (calls : List Call) :
    ((∀ j, 1 ≤ j → j ≤ 4 →
        (phase env h c runner j (callsAfter env h c runner calls (j - 1))).1 = none) →
      (BootstrapRemote env h c runner calls).err = none ∧
      (BootstrapRemote env h c runner calls).client.RemoteVPS.Daemon.Token =
        (h.getDaemonAPIToken c.RemoteVPS runner c.version
          (callsAfter env h c runner calls 3)).1.1 ∧
      (BootstrapRemote env h c runner calls).client =
        c.setToken (BootstrapRemote env h c runner calls).client.RemoteVPS.Daemon.Token) ∧
    ((∃ j, 1 ≤ j ∧ j ≤ 4 ∧
        (phase env h c runner j (callsAfter env h c runner calls (j - 1))).1 ≠ none) →
      (BootstrapRemote env h c runner calls).err ≠ none ∧
      (BootstrapRemote env h c runner calls).client = c) := by
  constructor
  · intro hall
    have h1 := hall 1 (by decide) (by decide)
    have h2 := hall 2 (by decide) (by decide)
    have h3 := hall 3 (by decide) (by decide)
    have h4 := hall 4 (by decide) (by decide)
    simp only [phase, callsAfter] at h1 h2 h3 h4 ⊢
    simp [BootstrapRemote, h1, h2, h3, h4, Client.setToken]
  · rintro ⟨j, hj1, hj4, hj⟩
    by_cases h1 : (phase env h c runner 1 (callsAfter env h c runner calls 0)).1 = none
    · by_cases h2 : (phase env h c runner 2 (callsAfter env h c runner calls 1)).1 = none
      · by_cases h3 : (phase env h c runner 3 (callsAfter env h c runner calls 2)).1 = none
        · by_cases h4 : (phase env h c runner 4 (callsAfter env h c runner calls 3)).1 = none
          · exfalso
            interval_cases j
            · exact hj h1
            · exact hj h2
            · exact hj h3
            · exact hj h4
          · simp only [phase, callsAfter] at h1 h2 h3 h4
            simp [BootstrapRemote, h1, h2, h3, h4]
        · simp only [phase, callsAfter] at h1 h2 h3
          simp [BootstrapRemote, h1, h2, h3]
      · simp only [phase, callsAfter] at h1 h2
        simp [BootstrapRemote, h1, h2]
    · simp only [phase, callsAfter] at h1
      simp [BootstrapRemote, h1]

/-- The token on the test client: a bootstrap that succeeds stores what the
token script printed, one that fails at phase 2 or at phase 3 leaves `old`. -/
theorem BootstrapRemote_token_examples :
    (BootstrapRemote testEnv (specHelpers testEnv) testClient mockSSHRunner
      []).client.RemoteVPS.Daemon.Token = "out" ∧
    (BootstrapRemote testEnv (specHelpers testEnv) testClient secondFailRunner
      []).client.RemoteVPS.Daemon.Token = "old" ∧
    (BootstrapRemote testEnv (specHelpers testEnv) testClient secondFailRunner [])
      = ⟨some "exit status 2", testClient, [Call.run "docker", Call.run "keygen"]⟩ ∧
    (BootstrapRemote testEnv (specHelpers testEnv) testClient streamFailRunner
      []).client.RemoteVPS.Daemon.Token = "old" := by
  decide

/-- `DaemonUp` on the test session: one streamed command when the template
loads, no command when it does not. -/
theorem DaemonUp_examples :
    DaemonUp testEnv mockSSHRunner "latest" "0.0.0.0" "8081" [] =
      (none, [Call.runStream "up latest 8081 0.0.0.0" false]) ∧
    DaemonUp emptyEnv mockSSHRunner "latest" "0.0.0.0" "8081" [] =
      (some "Asset client/bootstrap/daemon-up.sh not found", []) := by
  decide

/-! ## Status badge: theorems -/

/-- C4.  For `?badge=true` the status handler answers 200 with a badge that
depends on (build in progress, containers, query error) only: a query error
gives `("errored", true)` whatever the other two are; otherwise a build in
progress gives `("deploying", false)` whatever the containers are; otherwise
no container gives `("project offline", true)` and one or more give
`("deployed", false)`. -/
theorem statusHandler_badge (version latest : String) (status : DeploymentStatus)
    (queryError : Option GoError) :
    (queryError ≠ none →
      statusHandler version latest status queryError true = .badge 200 ⟨"errored", true⟩) ∧
    (queryError = none → status.BuildContainerActive = true →
      statusHandler version latest status queryError true = .badge 200 ⟨"deploying", false⟩) ∧
    (queryError = none → status.BuildContainerActive = false → status.Containers = [] →
      statusHandler version latest status queryError true
        = .badge 200 ⟨"project offline", true⟩) ∧
    (queryError = none → status.BuildContainerActive = false → status.Containers ≠ [] →
      statusHandler version latest status queryError true = .badge 200 ⟨"deployed", false⟩) ∧
    (∀ (version2 latest2 : String) (status2 : DeploymentStatus),
      status2.BuildContainerActive = status.BuildContainerActive →
      status2.Containers = status.Containers →
      statusHandler version2 latest2 status2 queryError true
        = statusHandler version latest status queryError true) := by
  refine ⟨?_, ?_, ?_, ?_, ?_⟩
  · intro he
    cases queryError with
    | none => exact absurd rfl he
    | some e => simp [statusHandler]
  · intro he hb
    subst he
    simp [statusHandler, hb]
  · intro he hb hc
    subst he
    simp [statusHandler, hb, hc]
  · intro he hb hc
    subst he
    simp [statusHandler, hb, hc]
  · intro v2 l2 s2 hb hc
    simp [statusHandler, hb, hc]

/-! ## Control-plane client: theorems -/

/-- `stringsContains` decides whether the characters of `substr` occur
contiguously in `s`. -/
theorem stringsContains_iff (s substr : String) :
    stringsContains s substr = true ↔ substr.toList <:+: s.toList := by
  unfold stringsContains
  rw [List.any_eq_true, List.infix_iff_prefix_suffix]
  constructor
  · rintro ⟨t, ht, hp⟩
    exact ⟨t, List.isPrefixOf_iff_prefix.mp hp, (List.mem_tails _ _).mp ht⟩
  · rintro ⟨t, hp, ht⟩
    exact ⟨t, (List.mem_tails _ _).mpr ht, List.isPrefixOf_iff_prefix.mpr hp⟩

/-- A request made by `NewRequest` has an empty header and the body given. -/
theorem NewRequest_ok (lib : Lib) (method url : String) (body : Option String) (req : Request)
    (h : NewRequest lib method url body = .ok req) : req.Header = [] ∧ req.Body = body := by
  unfold NewRequest at h
  simp only [] at h
  by_cases hv : lib.validMethod (if method = "" then "GET" else method) = true
  · rw [if_neg (not_not.mpr hv)] at h
    cases hu : lib.urlParse url with
    | error err => rw [hu] at h; cases h
    | ok u =>
      rw [hu] at h
      injection h with h
      subst h
      exact ⟨rfl, rfl⟩
  · rw [if_pos hv] at h
    cases h

/-- After the two `Set` of `request` on an empty header, `Authorization` holds
the second value. -/
theorem Header.get_authorization (v w : String) :
    Header.Get (Header.Set (Header.Set [] "Content-Type" v) "Authorization" w) "Authorization"
      = some w := by
  simp [Header.Get, Header.Set]

/-- After the two `Set` of `request` on an empty header, `Content-Type` holds
the first value. -/
theorem Header.get_content_type (v w : String) :
    Header.Get (Header.Set (Header.Set [] "Content-Type" v) "Authorization" w) "Content-Type"
      = some v := by
  simp [Header.Get, Header.Set]

/-- What `request` does: either it fails before anything is sent, or it hands
one request to the transport and returns the transport's answer; that request
has the two headers set and carries the payload's JSON, if there is a payload. -/
theorem request_cases (lib : Lib) (tr : Transport) (c : Client) (method endpoint : String)
    (requestBody : Option Payload) (sent : List Request) :
    (∃ err, request lib tr c method endpoint requestBody sent = ((none, some err), sent)) ∨
    (∃ req, request lib tr c method endpoint requestBody sent = (tr.Do sent req, sent ++ [req]) ∧
      req.Header.Get "Authorization" = some ("Bearer " ++ c.RemoteVPS.Daemon.Token) ∧
      req.Header.Get "Content-Type" = some "application/json" ∧
      match requestBody with
      | some p => ∃ body, lib.jsonMarshal p = .ok body ∧ req.Body = some body
      | none => req.Body = none) := by
  unfold request
  cases hurl : lib.urlParse ("https://" ++ GetIPAndPort c.RemoteVPS) with
  | error err => exact Or.inl ⟨err, rfl⟩
  | ok url =>
    cases requestBody with
    | none =>
      simp only []
      cases hreq : NewRequest lib method
          (lib.urlString { url with Path := lib.pathJoin url.Path endpoint }) none with
      | error err => exact Or.inl ⟨err, rfl⟩
      | ok req =>
        obtain ⟨hh, hb⟩ := NewRequest_ok _ _ _ _ _ hreq
        refine Or.inr ⟨_, rfl, ?_, ?_, ?_⟩
        · simp only [hh]; exact Header.get_authorization _ _
        · simp only [hh]; exact Header.get_content_type _ _
        · exact hb
    | some p =>
      simp only []
      cases hjson : lib.jsonMarshal p with
      | error err => exact Or.inl ⟨err, rfl⟩
      | ok body =>
        simp only []
        cases hreq : NewRequest lib method
            (lib.urlString { url with Path := lib.pathJoin url.Path endpoint }) (some body) with
        | error err => exact Or.inl ⟨err, rfl⟩
        | ok req =>
          obtain ⟨hh, hb⟩ := NewRequest_ok _ _ _ _ _ hreq
          refine Or.inr ⟨_, rfl, ?_, ?_, ?_⟩
          · simp only [hh]; exact Header.get_authorization _ _
          · simp only [hh]; exact Header.get_content_type _ _
          · exact ⟨body, rfl, hb⟩

/-- Every operation other than `Status` is one call of `request` with the
operation's payload, returned as it is. -/
theorem perform_eq_request (lib : Lib) (tr : Transport) (c : Client) (op : Operation)
    (hop : op ≠ .status) :
    ∃ method endpoint, ∀ sent,
      op.perform lib tr c sent = request lib tr c method endpoint (op.payload lib c) sent := by
  cases op with
  | status => exact absurd rfl hop
  | up g b s => exact ⟨"POST", "/up", fun _ => rfl⟩
  | down => exact ⟨"POST", "/down", fun _ => rfl⟩
  | reset => exact ⟨"POST", "/reset", fun _ => rfl⟩
  | logs s k => exact ⟨"GET", "/logs", fun _ => rfl⟩
  | addUser u p a => exact ⟨"POST", "/user/adduser", fun _ => rfl⟩
  | removeUser u => exact ⟨"POST", "/user/removeuser", fun _ => rfl⟩
  | resetUsers => exact ⟨"POST", "/user/resetusers", fun _ => rfl⟩
  | listUsers => exact ⟨"GET", "/user/listusers", fun _ => rfl⟩

/-- `Status` sends what its call of `request` sends. -/
theorem Status_snd (lib : Lib) (tr : Transport) (c : Client) (sent : List Request) :
    (Status lib tr c sent).2 = (request lib tr c "GET" "/status" none sent).2 := by
  unfold Status
  simp only []
  split
  · split <;> rfl
  · rfl

/-- `looksOffline` holds of the error texts that contain "EOF" or "refused". -/
theorem looksOffline_iff (err : GoError) :
    looksOffline err = true ↔
      ("EOF".toList <:+: err.toList ∨ "refused".toList <:+: err.toList) := by
  unfold looksOffline
  rw [Bool.or_eq_true, stringsContains_iff, stringsContains_iff]

/-- `Status` on a request that failed with an error `looksOffline` accepts. -/
theorem Status_of_offline (lib : Lib) (tr : Transport) (c : Client) (sent : List Request)
    (err : GoError) (herr : (request lib tr c "GET" "/status" none sent).1.2 = some err)
    (hoff : looksOffline err = true) :
    (Status lib tr c sent).1 = (none, some (offlineError c)) := by
  unfold looksOffline at hoff
  unfold Status offlineError
  simp only [herr]
  rw [if_pos hoff]

/-- `Status` on a request that failed with an error `looksOffline` rejects. -/
theorem Status_of_other_error (lib : Lib) (tr : Transport) (c : Client) (sent : List Request)
    (err : GoError) (herr : (request lib tr c "GET" "/status" none sent).1.2 = some err)
    (hoff : looksOffline err = false) :
    Status lib tr c sent = request lib tr c "GET" "/status" none sent := by
  unfold looksOffline at hoff
  unfold Status
  simp only [herr]
  rw [if_neg (by simp [hoff])]

/-- `Status` on a request that did not fail. -/
theorem Status_of_success (lib : Lib) (tr : Transport) (c : Client) (sent : List Request)
    (herr : (request lib tr c "GET" "/status" none sent).1.2 = none) :
    Status lib tr c sent = request lib tr c "GET" "/status" none sent := by
  unfold Status
  simp only [herr]

/-- C6.  `Status` returns no response and the error "daemon on remote <name>
appears offline or inaccessible" when its request fails with an error whose
text contains "EOF" or "refused"; when the request fails with any other
error, or does not fail, `Status` returns the response and the error of the
request unchanged. -/
theorem Status_offline_translation (lib : Lib) (tr : Transport) (c : Client)
    (sent : List Request) :
    (∀ err, (request lib tr c "GET" "/status" none sent).1.2 = some err →
      ("EOF".toList <:+: err.toList ∨ "refused".toList <:+: err.toList) →
      (Status lib tr c sent).1 =
        (none, some ("daemon on remote " ++ c.RemoteVPS.Name ++
          " appears offline or inaccessible"))) ∧
    (∀ err, (request lib tr c "GET" "/status" none sent).1.2 = some err →
      ¬ ("EOF".toList <:+: err.toList ∨ "refused".toList <:+: err.toList) →
      (Status lib tr c sent).1 = (request lib tr c "GET" "/status" none sent).1) ∧
    ((request lib tr c "GET" "/status" none sent).1.2 = none →
      (Status lib tr c sent).1 = (request lib tr c "GET" "/status" none sent).1) := by
  refine ⟨?_, ?_, ?_⟩
  · intro err herr hc
    exact Status_of_offline lib tr c sent err herr ((looksOffline_iff err).mpr hc)
  · intro err herr hc
    rw [← looksOffline_iff, Bool.not_eq_true] at hc
    rw [Status_of_other_error lib tr c sent err herr hc]
  · intro herr
    rw [Status_of_success lib tr c sent herr]

/-- `Status` on the test client: a refused connection is reported as the
daemon being offline, a timeout and a success are returned as they are. -/
theorem Status_examples :
    (Status testLib refusedTransport testClient []).1 =
      (none, some "daemon on remote gcloud appears offline or inaccessible") ∧
    (Status testLib timeoutTransport testClient []).1 =
      (none, some "context deadline exceeded") ∧
    (Status testLib okTransport testClient []).1 = (some ⟨200, "ok"⟩, none) := by
  decide

/-- `request`, step by step: it returns the error of `url.Parse`, of
`json.Marshal` or of `http.NewRequest` with nothing sent, and otherwise hands
the request with the two headers set to the transport. -/
theorem request_eq (lib : Lib) (tr : Transport) (c : Client) (method endpoint : String)
    (requestBody : Option Payload) (sent : List Request) :
    request lib tr c method endpoint requestBody sent =
      match lib.urlParse ("https://" ++ GetIPAndPort c.RemoteVPS) with
      | .error err => ((none, some err), sent)
      | .ok url =>
        match requestBody with
        | some p =>
          match lib.jsonMarshal p with
          | .error err => ((none, some err), sent)
          | .ok body =>
            match NewRequest lib method
                (lib.urlString { url with Path := lib.pathJoin url.Path endpoint })
                (some body) with
            | .error err => ((none, some err), sent)
            | .ok r =>
              (tr.Do sent (Request.mk r.Method r.URL
                  (Header.Set (Header.Set r.Header "Content-Type" "application/json")
                    "Authorization" ("Bearer " ++ c.RemoteVPS.Daemon.Token))
                  r.Body),
                sent ++ [(Request.mk r.Method r.URL
                  (Header.Set (Header.Set r.Header "Content-Type" "application/json")
                    "Authorization" ("Bearer " ++ c.RemoteVPS.Daemon.Token))
                  r.Body)])
        | none =>
          match NewRequest lib method
              (lib.urlString { url with Path := lib.pathJoin url.Path endpoint }) none with
          | .error err => ((none, some err), sent)
          | .ok r =>
            (tr.Do sent (Request.mk r.Method r.URL
                  (Header.Set (Header.Set r.Header "Content-Type" "application/json")
                    "Authorization" ("Bearer " ++ c.RemoteVPS.Daemon.Token))
                  r.Body),
              sent ++ [(Request.mk r.Method r.URL
                  (Header.Set (Header.Set r.Header "Content-Type" "application/json")
                    "Authorization" ("Bearer " ++ c.RemoteVPS.Daemon.Token))
                  r.Body)]) := by
  unfold request
  cases lib.urlParse ("https://" ++ GetIPAndPort c.RemoteVPS) with
  | error err => rfl
  | ok url =>
    cases requestBody with
    | none => rfl
    | some p =>
      simp only []
      cases lib.jsonMarshal p with
      | error err => rfl
      | ok body => rfl

/-- Every operation sends what its call of `request` sends: the call with the
operation's method, endpoint and payload. -/
theorem perform_snd (lib : Lib) (tr : Transport) (c : Client) (op : Operation)
    (sent : List Request) :
    (op.perform lib tr c sent).2 =
      (request lib tr c op.method op.endpoint (op.payload lib c) sent).2 := by
  cases op with
  | status => exact Status_snd lib tr c sent
  | up g b s => rfl
  | down => rfl
  | reset => rfl
  | logs s k => rfl
  | addUser u p a => rfl
  | removeUser u => rfl
  | resetUsers => rfl
  | listUsers => rfl

/-- When the call of `request` fails before anything is sent, the operation
returns no response and an error. -/
theorem perform_of_request_error (lib : Lib) (tr : Transport) (c : Client) (op : Operation)
    (sent : List Request) (err : GoError)
    (h : request lib tr c op.method op.endpoint (op.payload lib c) sent = ((none, some err), sent)) :
    (op.perform lib tr c sent).2 = sent ∧ (op.perform lib tr c sent).1.1 = none ∧
      (op.perform lib tr c sent).1.2 ≠ none := by
  refine ⟨by rw [perform_snd, h], ?_⟩
  cases op with
  | status =>
    have h2 : request lib tr c "GET" "/status" none sent = ((none, some err), sent) := h
    constructor
    · simp only [Operation.perform, Status, h2]
      split <;> rfl
    · simp only [Operation.perform, Status, h2]
      split <;> simp
  | up g b s => exact ⟨by rw [show (Operation.up g b s).perform lib tr c sent = _ from h],
      by rw [show (Operation.up g b s).perform lib tr c sent = _ from h]; simp⟩
  | down => exact ⟨by rw [show Operation.down.perform lib tr c sent = _ from h],
      by rw [show Operation.down.perform lib tr c sent = _ from h]; simp⟩
  | reset => exact ⟨by rw [show Operation.reset.perform lib tr c sent = _ from h],
      by rw [show Operation.reset.perform lib tr c sent = _ from h]; simp⟩
  | logs s k => exact ⟨by rw [show (Operation.logs s k).perform lib tr c sent = _ from h],
      by rw [show (Operation.logs s k).perform lib tr c sent = _ from h]; simp⟩
  | addUser u p a => exact ⟨by rw [show (Operation.addUser u p a).perform lib tr c sent = _ from h],
      by rw [show (Operation.addUser u p a).perform lib tr c sent = _ from h]; simp⟩
  | removeUser u => exact ⟨by rw [show (Operation.removeUser u).perform lib tr c sent = _ from h],
      by rw [show (Operation.removeUser u).perform lib tr c sent = _ from h]; simp⟩
  | resetUsers => exact ⟨by rw [show Operation.resetUsers.perform lib tr c sent = _ from h],
      by rw [show Operation.resetUsers.perform lib tr c sent = _ from h]; simp⟩
  | listUsers => exact ⟨by rw [show Operation.listUsers.perform lib tr c sent = _ from h],
      by rw [show Operation.listUsers.perform lib tr c sent = _ from h]; simp⟩

/-- C5.  Every operation of the control-plane client (Up, Down, Status, Reset,
Logs, AddUser, RemoveUser, ResetUsers, ListUsers) builds and sends exactly one
request whenever `url.Parse`, `json.Marshal` of its payload and
`http.NewRequest` succeed, and sends nothing, returning an error and no
response, when one of them fails.  The request it builds has the method and
the URL that `http.NewRequest` gave it and carries `Authorization` equal to
`"Bearer "` followed by the profile's API token; when the operation has a
payload the request carries `Content-Type: application/json` and its body is
the JSON encoding of that payload; when the operation has no payload the
request has no body. -/
theorem perform_request_headers (lib : Lib) (tr : Transport) (c : Client) (op : Operation)
    (sent : List Request) :
    match lib.urlParse ("https://" ++ GetIPAndPort c.RemoteVPS) with
    | .error _ =>
      (op.perform lib tr c sent).2 = sent ∧ (op.perform lib tr c sent).1.1 = none ∧
        (op.perform lib tr c sent).1.2 ≠ none
    | .ok url =>
      match op.payload lib c with
      | some p =>
        match lib.jsonMarshal p with
        | .error _ =>
          (op.perform lib tr c sent).2 = sent ∧ (op.perform lib tr c sent).1.1 = none ∧
            (op.perform lib tr c sent).1.2 ≠ none
        | .ok body =>
          match NewRequest lib op.method
              (lib.urlString { url with Path := lib.pathJoin url.Path op.endpoint })
              (some body) with
          | .error _ =>
            (op.perform lib tr c sent).2 = sent ∧ (op.perform lib tr c sent).1.1 = none ∧
              (op.perform lib tr c sent).1.2 ≠ none
          | .ok r =>
            ∃ req, (op.perform lib tr c sent).2 = sent ++ [req] ∧
              req.Method = r.Method ∧ req.URL = r.URL ∧
              req.Header.Get "Authorization" = some ("Bearer " ++ c.RemoteVPS.Daemon.Token) ∧
              req.Header.Get "Content-Type" = some "application/json" ∧
              req.Body = some body
      | none =>
        match NewRequest lib op.method
            (lib.urlString { url with Path := lib.pathJoin url.Path op.endpoint }) none with
        | .error _ =>
          (op.perform lib tr c sent).2 = sent ∧ (op.perform lib tr c sent).1.1 = none ∧
            (op.perform lib tr c sent).1.2 ≠ none
        | .ok r =>
          ∃ req, (op.perform lib tr c sent).2 = sent ++ [req] ∧
            req.Method = r.Method ∧ req.URL = r.URL ∧
            req.Header.Get "Authorization" = some ("Bearer " ++ c.RemoteVPS.Daemon.Token) ∧
            req.Body = none := by
  have hreq := request_eq lib tr c op.method op.endpoint (op.payload lib c) sent
  have hsnd := perform_snd lib tr c op sent
  cases hurl : lib.urlParse ("https://" ++ GetIPAndPort c.RemoteVPS) with
  | error err =>
    rw [hurl] at hreq
    exact perform_of_request_error lib tr c op sent err hreq
  | ok url =>
    rw [hurl] at hreq
    simp only [] at hreq ⊢
    cases hpl : op.payload lib c with
    | none =>
      rw [hpl] at hreq hsnd
      simp only [] at hreq ⊢
      cases hnew : NewRequest lib op.method
          (lib.urlString { url with Path := lib.pathJoin url.Path op.endpoint }) none with
      | error err =>
        rw [hnew] at hreq
        exact perform_of_request_error lib tr c op sent err (by rw [hpl]; exact hreq)
      | ok r =>
        rw [hnew] at hreq
        simp only [] at hreq
        obtain ⟨hh, hb⟩ := NewRequest_ok _ _ _ _ _ hnew
        refine ⟨Request.mk r.Method r.URL
          (Header.Set (Header.Set r.Header "Content-Type" "application/json")
            "Authorization" ("Bearer " ++ c.RemoteVPS.Daemon.Token)) r.Body,
          by rw [hsnd, hreq], rfl, rfl, ?_, ?_⟩
        · simp only [hh]; exact Header.get_authorization _ _
        · exact hb
    | some p =>
      rw [hpl] at hreq hsnd
      simp only [] at hreq ⊢
      cases hjson : lib.jsonMarshal p with
      | error err =>
        rw [hjson] at hreq
        exact perform_of_request_error lib tr c op sent err (by rw [hpl]; exact hreq)
      | ok body =>
        rw [hjson] at hreq
        simp only [] at hreq ⊢
        cases hnew : NewRequest lib op.method
            (lib.urlString { url with Path := lib.pathJoin url.Path op.endpoint })
            (some body) with
        | error err =>
          rw [hnew] at hreq
          exact perform_of_request_error lib tr c op sent err (by rw [hpl]; exact hreq)
        | ok r =>
          rw [hnew] at hreq
          simp only [] at hreq
          obtain ⟨hh, hb⟩ := NewRequest_ok _ _ _ _ _ hnew
          refine ⟨Request.mk r.Method r.URL
            (Header.Set (Header.Set r.Header "Content-Type" "application/json")
              "Authorization" ("Bearer " ++ c.RemoteVPS.Daemon.Token)) r.Body,
            by rw [hsnd, hreq], rfl, rfl, ?_, ?_, ?_⟩
          · simp only [hh]; exact Header.get_authorization _ _
          · simp only [hh]; exact Header.get_content_type _ _
          · exact hb

/-- Witness of C5: `Logs` on the test client, where the library calls succeed,
sends one `GET` request with both headers and the JSON of its payload. -/
theorem perform_request_headers_witness :
    ∃ req, ((Operation.logs true "web_1").perform testLib okTransport testClient []).2
        = [] ++ [req] ∧
      req.Method = "GET" ∧ req.URL = ⟨"https", "https://0.0.0.0:8081/logs", ""⟩ ∧
      req.Header.Get "Authorization" = some ("Bearer " ++ testClient.RemoteVPS.Daemon.Token) ∧
      req.Header.Get "Content-Type" = some "application/json" ∧
      req.Body = some "daemon:web_1" :=
  perform_request_headers testLib okTransport testClient (.logs true "web_1") []

/-- An operation does build a request: `Logs` on the test client sends one
`GET` with both headers and the JSON of its payload. -/
theorem Logs_builds_request_example :
    ((Operation.logs true "web_1").perform testLib okTransport testClient []).2 =
      [{ Method := "GET"
         URL := ⟨"https", "https://0.0.0.0:8081/logs", ""⟩
         Header := [("Content-Type", "application/json"), ("Authorization", "Bearer old")]
         Body := some "daemon:web_1" }] := by
  decide

/-- C7, as stated, fails for `Down`: when the connection is refused, `Down`
returns the raw transport error, whose text contains "refused", and not the
daemon-appears-offline error. -/
theorem Down_refused_not_translated :
    (Operation.down.perform testLib refusedTransport testClient []).1 =
      (none, some "dial tcp 0.0.0.0:8081: connect: connection refused") ∧
    "refused".toList <:+: "dial tcp 0.0.0.0:8081: connect: connection refused".toList ∧
    (Operation.down.perform testLib refusedTransport testClient []).1.2 ≠
      some (offlineError testClient) := by
  refine ⟨by decide, (stringsContains_iff _ _).mp (by decide), by decide⟩

/-- C7, amended.  When an operation has handed its request to the transport
and the transport fails with a refused connection or a premature stream end
(an error whose text contains "refused" or "EOF"), `Status` returns the
daemon-appears-offline error and no response, and every other operation
returns what the transport returned, the raw error included. -/
theorem perform_transport_failure (lib : Lib) (tr : Transport) (c : Client) (op : Operation)
    (sent : List Request) (req : Request) (resp : Option Response) (err : GoError)
    (hreq : (op.perform lib tr c sent).2 = sent ++ [req])
    (hdo : tr.Do sent req = (resp, some err))
    (hoff : "EOF".toList <:+: err.toList ∨ "refused".toList <:+: err.toList) :
    (op = .status → (op.perform lib tr c sent).1 = (none, some (offlineError c))) ∧
    (op ≠ .status → (op.perform lib tr c sent).1 = (resp, some err)) := by
  constructor
  · intro hop
    subst hop
    rcases request_cases lib tr c "GET" "/status" none sent with ⟨e, h⟩ | ⟨req2, h, -⟩
    · rw [Operation.perform, Status_snd, h] at hreq
      simp at hreq
    · rw [Operation.perform, Status_snd, h] at hreq
      have hr : req2 = req := by simpa using hreq
      subst hr
      have h1 : (request lib tr c "GET" "/status" none sent).1.2 = some err := by rw [h, hdo]
      exact Status_of_offline lib tr c sent err h1 ((looksOffline_iff err).mpr hoff)
  · intro hop
    obtain ⟨method, endpoint, hp⟩ := perform_eq_request lib tr c op hop
    rw [hp sent] at hreq ⊢
    rcases request_cases lib tr c method endpoint (op.payload lib c) sent
      with ⟨e, h⟩ | ⟨req2, h, -⟩
    · rw [h] at hreq
      simp at hreq
    · rw [h] at hreq
      have hr : req2 = req := by simpa using hreq
      subst hr
      rw [h, hdo]

/-- Witness of C7, amended: on a refused connection `Status` reports the
daemon as offline. -/
theorem perform_transport_failure_witness :
    (Operation.status = .status →
      (Operation.status.perform testLib refusedTransport testClient []).1 =
        (none, some (offlineError testClient))) ∧
    (Operation.status ≠ .status →
      (Operation.status.perform testLib refusedTransport testClient []).1 =
        (none, some "dial tcp 0.0.0.0:8081: connect: connection refused")) :=
  perform_transport_failure testLib refusedTransport testClient .status []
    { Method := "GET"
      URL := ⟨"https", "https://0.0.0.0:8081/status", ""⟩
      Header := [("Content-Type", "application/json"), ("Authorization", "Bearer old")]
      Body := none }
    none "dial tcp 0.0.0.0:8081: connect: connection refused"
    (by decide) (by decide) (Or.inr ((stringsContains_iff _ _).mp (by decide)))

/-! ## Streaming copy loop: theorems -/

/-- The bytes delivered over two stretches of a run. -/
theorem delivered_append (a b : List Event) :
    delivered (a ++ b) = delivered a ++ delivered b := by
  induction a with
  | nil => rfl
  | cons e es ih => cases e <;> simp [delivered, ih]

/-- The bytes written over two stretches of a run. -/
theorem written_append (a b : List Event) :
    written (a ++ b) = written a ++ written b := by
  induction a with
  | nil => rfl
  | cons e es ih => cases e <;> simp [written, ih]

/-- A run of `FlushRoutine` that returns ends with a failed `Read` and the
`Close` of the source; in what it did before, every byte read was written. -/
theorem FlushRoutine_run (w : Writer) (rc : ReadCloser) :
    ∀ (fuel : Nat) (events tr : List Event), FlushRoutine w rc fuel events = some tr →
      ∃ mid data e, tr = events ++ mid ++ [Event.read data (some e), Event.close] ∧
        written mid = delivered mid := by
  intro fuel
  induction fuel with
  | zero => intro events tr h; simp [FlushRoutine] at h
  | succ n ih =>
    intro events tr h
    cases hr : rc.Read events 100 with
    | mk data err =>
      cases err with
      | some e =>
        simp [FlushRoutine, Flush, hr] at h
        exact ⟨[], data, e, by simp [← h], rfl⟩
      | none =>
        simp only [FlushRoutine, Flush, hr] at h
        obtain ⟨mid, d, e, htr, hmid⟩ := ih _ _ h
        by_cases hf : w.isFlusher = true
        · refine ⟨[Event.read data none,
            Event.write data (w.Write (events ++ [Event.read data none]) data).2,
            Event.flush] ++ mid, d, e, ?_, ?_⟩
          · rw [htr]; simp [hf]
          · simp [written, delivered, written_append, delivered_append, hmid]
        · refine ⟨[Event.read data none,
            Event.write data (w.Write (events ++ [Event.read data none]) data).2] ++ mid,
            d, e, ?_, ?_⟩
          · rw [htr]; simp [hf]
          · simp [written, delivered, written_append, delivered_append, hmid]

/-- In a run of `FlushRoutine` from the start, the bytes delivered are the bytes
written followed by the bytes of the `Read` that failed. -/
theorem FlushRoutine_delivered (w : Writer) (rc : ReadCloser) (fuel : Nat) (tr : List Event)
    (h : FlushRoutine w rc fuel [] = some tr) :
    ∃ data e, tr.getLast? = some Event.close ∧ Event.read data (some e) ∈ tr ∧
      delivered tr = written tr ++ data := by
  obtain ⟨mid, data, e, htr, hmid⟩ := FlushRoutine_run w rc fuel [] tr h
  refine ⟨data, e, ?_, ?_, ?_⟩
  · rw [htr]; simp
  · rw [htr]; simp
  · rw [htr]
    simp [written, delivered, written_append, delivered_append, hmid]

/-- C9, at the failing input.  A source whose `Read` delivers the three bytes
`abc` together with `io.EOF`: `FlushRoutine` returns, the source has delivered
three bytes, and nothing has been written to the sink. -/
theorem FlushRoutine_drops_final_bytes (fuel : Nat) :
    FlushRoutine okWriter dataWithEOF (fuel + 1) [] =
      some [Event.read [97, 98, 99] (some "EOF"), Event.close] ∧
    delivered [Event.read [97, 98, 99] (some "EOF"), Event.close] = [97, 98, 99] ∧
    written [Event.read [97, 98, 99] (some "EOF"), Event.close] = [] := by
  refine ⟨?_, by decide, by decide⟩
  simp [FlushRoutine, Flush, dataWithEOF]

/-- C10, as stated, fails: on a sink whose every `Write` fails, the loop reads
and writes again after the first failed `Write`, and closes the source only
when its `Read` fails. -/
theorem FlushRoutine_continues_after_write_failure :
    FlushRoutine brokenWriter twoChunks 3 [] =
      some [Event.read [1] none, Event.write [1] (some "write: broken pipe"),
        Event.read [2] none, Event.write [2] (some "write: broken pipe"),
        Event.read [] (some "EOF"), Event.close] ∧
    closesAndStopsAtFailure
      [Event.read [1] none, Event.write [1] (some "write: broken pipe"),
        Event.read [2] none, Event.write [2] (some "write: broken pipe"),
        Event.read [] (some "EOF"), Event.close] = false := by
  constructor <;> decide

/-- C10, amended.  Whenever a `Read` of the source fails, `Flush` closes the
source right after it and returns the error, and `FlushRoutine` stops there:
it returns with nothing after the `Close`. -/
theorem FlushRoutine_stops_at_read_failure (w : Writer) (rc : ReadCloser) (fuel : Nat)
    (events : List Event) (data : List Byte) (e : GoError)
    (hread : rc.Read events 100 = (data, some e)) :
    Flush w rc 100 events = (some e, events ++ [Event.read data (some e), Event.close]) ∧
    FlushRoutine w rc (fuel + 1) events =
      some (events ++ [Event.read data (some e), Event.close]) := by
  have hF : Flush w rc 100 events =
      (some e, events ++ [Event.read data (some e), Event.close]) := by
    simp [Flush, hread]
  exact ⟨hF, by simp [FlushRoutine, hF]⟩

/-- Witness of C10, amended: the source that fails on its third `Read`, after
two chunks went to a broken sink. -/
theorem FlushRoutine_stops_at_read_failure_witness :
    Flush brokenWriter twoChunks 100
        [Event.read [1] none, Event.write [1] (some "write: broken pipe"),
          Event.read [2] none, Event.write [2] (some "write: broken pipe")] =
      (some "EOF",
        [Event.read [1] none, Event.write [1] (some "write: broken pipe"),
          Event.read [2] none, Event.write [2] (some "write: broken pipe")] ++
        [Event.read [] (some "EOF"), Event.close]) ∧
    FlushRoutine brokenWriter twoChunks (0 + 1)
        [Event.read [1] none, Event.write [1] (some "write: broken pipe"),
          Event.read [2] none, Event.write [2] (some "write: broken pipe")] =
      some ([Event.read [1] none, Event.write [1] (some "write: broken pipe"),
          Event.read [2] none, Event.write [2] (some "write: broken pipe")] ++
        [Event.read [] (some "EOF"), Event.close]) :=
  FlushRoutine_stops_at_read_failure brokenWriter twoChunks 0 _ [] "EOF" (by decide)

/-! ## Daemon start-up: theorems -/

/-- The events of `run` once docker has answered and the image is pulled, by
what `os.Stat` says of the two SSL files: `run` generates a certificate exactly
when both files are reported missing. -/
theorem run_after_pull (env : DaemonEnv) (host port version : String)
    (hclient : env.NewEnvClient = none) (hpull : env.ImagePull = none) :
    run env host port version =
      if osIsNotExist (env.Stat daemonSSLKey) && osIsNotExist (env.Stat daemonSSLCert) then
        match env.GenerateCertificate daemonSSLCert daemonSSLKey (host ++ ":" ++ port) "RSA" with
        | some _ =>
          [.ImagePull, .Close,
            .GenerateCertificate daemonSSLCert daemonSSLKey (host ++ ":" ++ port) "RSA"]
        | none =>
          [.ImagePull, .Close,
            .GenerateCertificate daemonSSLCert daemonSSLKey (host ++ ":" ++ port) "RSA",
            .ListenAndServeTLS (":" ++ port) daemonSSLCert daemonSSLKey mux]
      else [.ImagePull, .Close, .ListenAndServeTLS (":" ++ port) daemonSSLCert daemonSSLKey mux] := by
  unfold run
  simp only [hclient, hpull]
  cases hk : osIsNotExist (env.Stat daemonSSLKey) <;>
    cases hc : osIsNotExist (env.Stat daemonSSLCert) <;> simp

/-- When both SSL files are missing, `run` calls `GenerateCertificate` before
it serves, and does not serve when the generation fails. -/
theorem run_both_missing (env : DaemonEnv) (host port version : String)
    (hclient : env.NewEnvClient = none) (hpull : env.ImagePull = none)
    (hcert : env.Stat daemonSSLCert = .notExist) (hkey : env.Stat daemonSSLKey = .notExist) :
    (env.GenerateCertificate daemonSSLCert daemonSSLKey (host ++ ":" ++ port) "RSA" = none →
      run env host port version =
        [.ImagePull, .Close,
          .GenerateCertificate daemonSSLCert daemonSSLKey (host ++ ":" ++ port) "RSA",
          .ListenAndServeTLS (":" ++ port) daemonSSLCert daemonSSLKey mux]) ∧
    (∀ err,
      env.GenerateCertificate daemonSSLCert daemonSSLKey (host ++ ":" ++ port) "RSA" = some err →
      run env host port version =
        [.ImagePull, .Close,
          .GenerateCertificate daemonSSLCert daemonSSLKey (host ++ ":" ++ port) "RSA"]) := by
  rw [run_after_pull env host port version hclient hpull, hcert, hkey]
  constructor
  · intro h
    simp [osIsNotExist, h]
  · intro err h
    simp [osIsNotExist, h]

/-- C11, at the failing input.  With the certificate file present and the key
file missing, `run` serves without having called `GenerateCertificate`:
`sslRequirementsPresent` is true as soon as one of the two files is there. -/
theorem run_serves_with_key_missing (host port version : String) :
    certOnly daemonSSLCert = .found ∧ certOnly daemonSSLKey = .notExist ∧
    run (daemonEnvWith certOnly) host port version =
      [.ImagePull, .Close, .ListenAndServeTLS (":" ++ port) daemonSSLCert daemonSSLKey mux] ∧
    (run (daemonEnvWith certOnly) host port version).any DaemonEvent.isServe = true ∧
    (run (daemonEnvWith certOnly) host port version).any DaemonEvent.isGenerate = false := by
  have hc : certOnly daemonSSLCert = .found := by decide
  have hk : certOnly daemonSSLKey = .notExist := by decide
  have hr : run (daemonEnvWith certOnly) host port version =
      [.ImagePull, .Close, .ListenAndServeTLS (":" ++ port) daemonSSLCert daemonSSLKey mux] := by
    rw [run_after_pull _ host port version rfl rfl]
    simp [daemonEnvWith, hc, hk, osIsNotExist]
  refine ⟨hc, hk, hr, ?_, ?_⟩ <;> rw [hr] <;> rfl

/-- The handler that `run` serves is `mux`. -/
theorem run_serves_mux (env : DaemonEnv) (host port version addr certFile keyFile : String)
    (m : ServeMux)
    (h : DaemonEvent.ListenAndServeTLS addr certFile keyFile m ∈ run env host port version) :
    m = mux := by
  unfold run at h
  cases hclient : env.NewEnvClient with
  | some e => simp [hclient] at h
  | none =>
    cases hpull : env.ImagePull with
    | some e => simp [hclient, hpull] at h
    | none =>
      simp only [hclient, hpull] at h
      split at h
      · split at h
        · simp at h
        · simp at h
          exact h.2.2.2
      · simp at h
        exact h.2.2.2

/-- C12, as stated, fails: the four user paths are not registered, so that a
request to any of them is served by the webhook receiver behind no guard, and
the files under `/admin/` are served without the guard as well. -/
theorem user_paths_reach_webhook :
    DaemonEvent.ListenAndServeTLS ":8081" daemonSSLCert daemonSSLKey mux ∈
      run (daemonEnvWith certAndKey) "0.0.0.0" "8081" "test" ∧
    mux.lookup "/user/adduser" = some ⟨"/", .bare .gitHubWebHookHandler⟩ ∧
    mux.lookup "/user/removeuser" = some ⟨"/", .bare .gitHubWebHookHandler⟩ ∧
    mux.lookup "/user/resetusers" = some ⟨"/", .bare .gitHubWebHookHandler⟩ ∧
    mux.lookup "/user/listusers" = some ⟨"/", .bare .gitHubWebHookHandler⟩ ∧
    (Handler.bare .gitHubWebHookHandler).reaches false = some .gitHubWebHookHandler ∧
    mux.lookup "/admin/index.html" =
      some ⟨"/admin/", .strip "/admin/" (.FileServer "/app/inertia-web")⟩ ∧
    (Handler.strip "/admin/" (.FileServer "/app/inertia-web")).reaches false =
      some (.FileServer "/app/inertia-web") := by
  decide

/-- C12, amended.  In the handler that `run` serves, each of `/up`, `/down`,
`/status`, `/reset`, `/logs` and `/health-check` is registered with its own
handler wrapped by the bearer-token guard, so that a request to one of these
six paths whose token does not match reaches no handler; the patterns served
without the guard are `/` (the webhook receiver) and `/admin/`. -/
theorem run_guarded_paths (env : DaemonEnv) (host port version addr certFile keyFile : String)
    (m : ServeMux)
    (h : DaemonEvent.ListenAndServeTLS addr certFile keyFile m ∈ run env host port version) :
    m.lookup "/up" = some ⟨"/up", .Authorized .upHandler⟩ ∧
    m.lookup "/down" = some ⟨"/down", .Authorized .downHandler⟩ ∧
    m.lookup "/status" = some ⟨"/status", .Authorized .statusHandler⟩ ∧
    m.lookup "/reset" = some ⟨"/reset", .Authorized .resetHandler⟩ ∧
    m.lookup "/logs" = some ⟨"/logs", .Authorized .logHandler⟩ ∧
    m.lookup "/health-check" = some ⟨"/health-check", .Authorized .HealthCheckHandler⟩ ∧
    (∀ path ∈ ["/up", "/down", "/status", "/reset", "/logs", "/health-check"],
      ∀ r, m.lookup path = some r → r.handler.reaches false = none) ∧
    (m.filter (fun r => !r.handler.guarded)).map Route.pattern = ["/", "/admin/"] := by
  rw [run_serves_mux env host port version addr certFile keyFile m h]
  decide

/-- Witness of C12, amended: the daemon started on a host that has both SSL
files. -/
theorem run_guarded_paths_witness :
    mux.lookup "/up" = some ⟨"/up", .Authorized .upHandler⟩ ∧
    mux.lookup "/down" = some ⟨"/down", .Authorized .downHandler⟩ ∧
    mux.lookup "/status" = some ⟨"/status", .Authorized .statusHandler⟩ ∧
    mux.lookup "/reset" = some ⟨"/reset", .Authorized .resetHandler⟩ ∧
    mux.lookup "/logs" = some ⟨"/logs", .Authorized .logHandler⟩ ∧
    mux.lookup "/health-check" = some ⟨"/health-check", .Authorized .HealthCheckHandler⟩ ∧
    (∀ path ∈ ["/up", "/down", "/status", "/reset", "/logs", "/health-check"],
      ∀ r, mux.lookup path = some r → r.handler.reaches false = none) ∧
    (mux.filter (fun r => !r.handler.guarded)).map Route.pattern = ["/", "/admin/"] :=
  run_guarded_paths (daemonEnvWith certAndKey) "0.0.0.0" "8081" "test" ":8081"
    daemonSSLCert daemonSSLKey mux (by decide)

/-! ## Client construction: theorems -/

/-- `NewClient` returns `false` whatever the configuration holds. -/
theorem NewClient_snd (remoteName : String) (config : Config) :
    (NewClient remoteName config).2 = false := by
  unfold NewClient
  cases config.GetRemote remoteName <;> rfl

/-- `NewClient` returns a client exactly when the configuration has the remote,
and the client wraps that remote. -/
theorem NewClient_fst (remoteName : String) (config : Config) :
    (NewClient remoteName config).1 =
      (config.GetRemote remoteName).map
        (fun remote => { RemoteVPS := remote, version := "", project := "", buildType := "" }) := by
  unfold NewClient
  cases config.GetRemote remoteName <;> rfl

/-- C13, at the failing input.  The configuration holds the remote `gcloud`,
and `NewClient` returns a client wrapping it together with `false`. -/
theorem NewClient_found_returns_false :
    testConfig.GetRemote "gcloud" = some testRemote ∧
    NewClient "gcloud" testConfig =
      (some { RemoteVPS := testRemote, version := "", project := "", buildType := "" },
        false) := by
  decide

end Inertia
